import Mathlib

/-
  Verification development for the streakkeeper repository
  (src/streakkeeper.py and src/telegram_streak_bot.py).

  The Python sources are shallowly embedded as pure Lean functions.
  Conventions used throughout:
  * Calendar dates are day numbers (`Int`): `date.today()` becomes an
    explicit `today : Int` parameter; ISO-string equality on dates in the
    Python code becomes equality of day numbers.  `civilToDay` converts a
    civil (year, month, day) to its day number so that concrete scenario
    dates (e.g. 2024-01-10) can be named.
  * Wall-clock time-of-day becomes explicit `nowHour nowMinute : Int`
    parameters.
  * External effects (git processes, file appends, JSON saves, Telegram
    sends) are made observable: each embedded command returns a record of
    the messages produced, the lines appended, whether state was saved,
    and the git commands attempted; the outcome of each git subprocess is
    an explicit input (`GitEnv`).
  * Python `str.strip()` is `pyStrip`; `str.isdigit()` is `pyIsDigit`
    over the Unicode digit classification `pyCharIsDigit`, and
    `int(...)` is `pyIntDigits`, which fails (Python ValueError) on
    digit-type characters that are not decimal digits.
-/

/-- Day number of a civil date (the standard days-from-civil algorithm,
counting days from 1970-01-01).  Used only to give concrete calendar dates
their day numbers; all intermediate arithmetic is on `Nat` (valid for
years ≥ 1). -/
def civilToDay (y m d : Nat) : Int :=
  let y2 := if m ≤ 2 then y - 1 else y
  let era := y2 / 400
  let yoe := y2 - era * 400
  let mp := if m > 2 then m - 3 else m + 9
  let doy := (153 * mp + 2) / 5 + d - 1
  let doe := yoe * 365 + yoe / 4 - yoe / 100 + doy
  (((era * 146097 + doe : Nat)) : Int) - 719468

/-! ## Embedding of src/streakkeeper.py -/

/-- The persistent configuration document of streakkeeper.py
(`.streakkeeper/config.json`, see `DEFAULT_CONFIG`).  `busy_until` is an
optional day number.  The source key `commit_prefix` is modelled by the
field `commit_msg_tag` (renamed only in this file). -/
structure SKConfig where
  busy_until : Option Int
  busy_note : String
  heartbeat_file : String
  remote : String
  branch : String
  commit_msg_tag : String
  deriving Repr, DecidableEq

/-- The persistent state document of streakkeeper.py
(`.streakkeeper/state.json`): `last_commit_date` is an optional day
number. -/
structure SKState where
  last_commit_date : Option Int
  deriving Repr, DecidableEq

/-- `is_busy_active` (streakkeeper.py lines 79-83): busy mode is active
iff `busy_until` is set and `today ≤ busy_until`. -/
def is_busy_active (config : SKConfig) (today : Int) : Bool × Option Int :=
  match config.busy_until with
  | none => (false, none)
  | some u => (decide (today ≤ u), some u)

/-- `cmd_busy` (streakkeeper.py lines 98-107): sets
`busy_until = today + max(days, 1) - 1` and overwrites the note when one
is given, then persists the configuration. -/
def cmd_busy (days : Int) (note : String) (config : SKConfig) (today : Int) : SKConfig :=
  { config with
    busy_until := some (today + (max days 1 - 1))
    busy_note := if note ≠ "" then note else config.busy_note }

/-- Command-line arguments of `streakkeeper tick`. -/
structure TickArgs where
  force : Bool
  dry_run : Bool
  note : String
  message : String
  deriving Repr, DecidableEq

/-- The environment `cmd_tick` observes through git subprocesses: the
current branch name and whether each of add / commit / push succeeds
(`err_text` is the diagnostic text of the first failing one). -/
structure GitEnv where
  current_branch : String
  add_ok : Bool
  commit_ok : Bool
  push_ok : Bool
  err_text : String
  deriving Repr, DecidableEq

/-- Observable outcome of one `cmd_tick` invocation: exit code, the main
message printed, the lines appended to the heartbeat file, the persisted
state after the call and whether it was written, and the git commands
attempted (in order). -/
structure TickOutcome where
  code : Int
  output : String
  appended : List String
  state_out : SKState
  state_saved : Bool
  git_ops : List (List String)
  deriving Repr, DecidableEq

/-- `cmd_tick` (streakkeeper.py lines 164-228), the protective action
`protect` of the spec.  Faithful control flow: busy/force gate, then the
once-per-day gate, then heartbeat append, then the state write (before
any git command), then branch resolution, then add/commit/push where a
failure aborts the chain with exit code 1. -/
def cmd_tick (config : SKConfig) (state : SKState) (args : TickArgs)
    (today : Int) (now : String) (git : GitEnv) : TickOutcome :=
  let busy := is_busy_active config today
  if busy.1 = false ∧ args.force = false then
    { code := 0
      output := match busy.2 with
        | none => "Skip: Busy mode acik degil."
        | some u => "Skip: Busy mode suresi dolmus (" ++ toString u ++ ")."
      appended := [], state_out := state, state_saved := false, git_ops := [] }
  else if state.last_commit_date = some today ∧ args.force = false then
    { code := 0, output := "Skip: Bugun zaten streak commit atilmis."
      appended := [], state_out := state, state_saved := false, git_ops := [] }
  else
    let note := if args.note ≠ "" then args.note else config.busy_note
    let line := "- " ++ now ++ " | " ++ note ++ "\n"
    let appended := if args.dry_run then [] else [line]
    let stateMem : SKState := { state with last_commit_date := some today }
    let stateOut := if args.dry_run then state else stateMem
    let saved := !args.dry_run
    let commitMessage :=
      if args.message ≠ "" then args.message
      else config.commit_msg_tag ++ ": keep streak " ++ toString today
    let branch0 := if config.branch ≠ "" then config.branch else git.current_branch
    if branch0 = "" ∧ args.dry_run = false then
      { code := 1
        output := "Hata: branch tespit edilemedi. Config icinde 'branch' degeri gir veya once ilk commit'i olustur."
        appended := appended, state_out := stateOut, state_saved := saved, git_ops := [] }
    else if args.dry_run then
      { code := 0
        output := "Dry run: " ++ config.heartbeat_file ++ " guncellenecek."
        appended := appended, state_out := stateOut, state_saved := saved, git_ops := [] }
    else
      let addCmd := ["add", config.heartbeat_file, ".streakkeeper/state.json"]
      let commitCmd := ["commit", "-m", commitMessage]
      let pushCmd := ["push", config.remote, branch0]
      if git.add_ok = false then
        { code := 1, output := "Hata: " ++ git.err_text
          appended := appended, state_out := stateOut, state_saved := saved
          git_ops := [addCmd] }
      else if git.commit_ok = false then
        { code := 1, output := "Hata: " ++ git.err_text
          appended := appended, state_out := stateOut, state_saved := saved
          git_ops := [addCmd, commitCmd] }
      else if git.push_ok = false then
        { code := 1, output := "Hata: " ++ git.err_text
          appended := appended, state_out := stateOut, state_saved := saved
          git_ops := [addCmd, commitCmd, pushCmd] }
      else
        { code := 0, output := "Commit ve push tamamlandi (" ++ toString today ++ ")."
          appended := appended, state_out := stateOut, state_saved := saved
          git_ops := [addCmd, commitCmd, pushCmd] }

/-! ## Embedding of src/telegram_streak_bot.py -/

/-- The fields of the bot configuration document
(`.streakkeeper/telegram.json`, see `DEFAULT_BOT_CONFIG`) that the
embedded operations read or write. -/
structure BotConfig where
  allowed_chat_id : String
  auto_bind_chat_on_start : Bool
  reminder_enabled : Bool
  reminder_hour : Int
  reminder_minute : Int
  deriving Repr, DecidableEq

/-- The bot runtime-state document (`.streakkeeper/bot_state.json`, see
`DEFAULT_BOT_STATE`): last processed update id and the day (if any) a
reminder was last sent. -/
structure BotState where
  last_update_id : Nat
  last_reminder_date : Option Int
  deriving Repr, DecidableEq

/-- Python `str.strip()`: drop leading and trailing whitespace.  (Core
`String.trim` is not kernel-reducible, so the embedding uses this
executable equivalent.) -/
def pyStrip (s : String) : String :=
  String.mk (((s.data.dropWhile Char.isWhitespace).reverse.dropWhile
    Char.isWhitespace).reverse)

/-- Result of `authorize_chat`: the `(allowed, bound_now)` pair the
Python function returns, plus the configuration after the call and
whether it was persisted. -/
structure AuthResult where
  allowed : Bool
  bound_now : Bool
  cfg : BotConfig
  saved : Bool
  deriving Repr, DecidableEq

/-- `authorize_chat` (telegram_streak_bot.py lines 490-503).  When no
chat is bound (stripped `allowed_chat_id` empty): bind and allow iff
auto-bind is on and the command is "/start"; otherwise reject.  When a
chat is bound: allow iff the incoming id equals the stored (stripped)
id, never mutating the binding. -/
def authorize_chat (chat_id cmd : String) (cfg : BotConfig) : AuthResult :=
  let allowed := pyStrip cfg.allowed_chat_id
  if allowed = "" then
    if cfg.auto_bind_chat_on_start = true ∧ cmd = "/start" then
      { allowed := true, bound_now := true
        cfg := { cfg with allowed_chat_id := chat_id }, saved := true }
    else
      { allowed := false, bound_now := false, cfg := cfg, saved := false }
  else if allowed ≠ chat_id then
    { allowed := false, bound_now := false, cfg := cfg, saved := false }
  else
    { allowed := true, bound_now := false, cfg := cfg, saved := false }

/-- `is_reminder_due` (telegram_streak_bot.py lines 286-296).  The
wall clock (`datetime.now()`), `date.today()` and `has_commit_today()`
are lifted to the explicit parameters `nowHour`, `nowMinute`, `today`
and `hasCommitToday`.  The Python tuple comparison
`(now.hour, now.minute) < (h, m)` is lexicographic. -/
def is_reminder_due (cfg : BotConfig) (state : BotState) (today : Int)
    (nowHour nowMinute : Int) (hasCommitToday : Bool) : Bool :=
  if cfg.reminder_enabled = false then false
  else if nowHour < cfg.reminder_hour ∨
      (nowHour = cfg.reminder_hour ∧ nowMinute < cfg.reminder_minute) then false
  else if state.last_reminder_date = some today then false
  else !hasCommitToday

/-- The reminder block of one `run_loop` iteration
(telegram_streak_bot.py lines 597-604): when the reminder is due and a
chat is bound (stripped id non-empty), send the notification and record
today as `last_reminder_date`; otherwise leave the state unchanged.
Returns the new state and whether a notification was sent. -/
def reminderStep (cfg : BotConfig) (state : BotState) (today : Int)
    (nowHour nowMinute : Int) (hasCommitToday : Bool) : BotState × Bool :=
  if is_reminder_due cfg state today nowHour nowMinute hasCommitToday then
    if pyStrip cfg.allowed_chat_id ≠ "" then
      ({ state with last_reminder_date := some today }, true)
    else (state, false)
  else (state, false)

/-- Decimal value of a character as Python `int(...)` sees it: `some v`
for code points with Unicode property Numeric_Type=Decimal, `none`
otherwise.  The full Unicode table is not reproduced; this covers the
decimal scripts exercised in this development (ASCII, Arabic-Indic,
Extended Arabic-Indic, Devanagari, fullwidth), classifying every other
code point as non-decimal. -/
def pyCharDecimalValue (c : Char) : Option Nat :=
  if 0x30 ≤ c.toNat ∧ c.toNat ≤ 0x39 then some (c.toNat - 0x30)
  else if 0x660 ≤ c.toNat ∧ c.toNat ≤ 0x669 then some (c.toNat - 0x660)
  else if 0x6F0 ≤ c.toNat ∧ c.toNat ≤ 0x6F9 then some (c.toNat - 0x6F0)
  else if 0x966 ≤ c.toNat ∧ c.toNat ≤ 0x96F then some (c.toNat - 0x966)
  else if 0xFF10 ≤ c.toNat ∧ c.toNat ≤ 0xFF19 then some (c.toNat - 0xFF10)
  else none

/-- Python `str.isdigit()` at character level: true for code points
with Numeric_Type=Decimal or Numeric_Type=Digit.  The digit-but-not-
decimal characters covered here are the superscript digits
(U+00B9, U+00B2, U+00B3, U+2070, U+2074..U+2079) and subscript digits
(U+2080..U+2089): `str.isdigit` accepts them but `int(...)` raises
ValueError on them. -/
def pyCharIsDigit (c : Char) : Bool :=
  (pyCharDecimalValue c).isSome ||
  decide (c.toNat = 0xB9) || decide (c.toNat = 0xB2) || decide (c.toNat = 0xB3) ||
  decide (c.toNat = 0x2070) ||
  decide (0x2074 ≤ c.toNat ∧ c.toNat ≤ 0x2079) ||
  decide (0x2080 ≤ c.toNat ∧ c.toNat ≤ 0x2089)

/-- Python `str.isdigit()`: true iff the string is non-empty and every
character is digit-type.  (Defined on the character list so it is
kernel-reducible.) -/
def pyIsDigit (s : String) : Bool :=
  !s.data.isEmpty && s.data.all pyCharIsDigit

/-- Python `int(...)` on a string that passed the isdigit gate:
`some n` (the base-10 value built from per-character decimal values) when
every character is a decimal digit, `none` (ValueError) when the
string is empty or some character has no decimal value — e.g. a
superscript digit, which `str.isdigit` accepts. -/
def pyIntDigits (s : String) : Option Nat :=
  if s.data.isEmpty then none
  else
    s.data.foldl
      (fun acc c =>
        match acc, pyCharDecimalValue c with
        | some n, some v => some (n * 10 + v)
        | _, _ => none)
      (some 0)

/-- Python `sep in s` for a single-character separator. -/
def pyContainsChar (s : String) (c : Char) : Bool :=
  s.data.contains c

/-- Helper for `pySplitChar`: split a character list at a separator,
carrying the reversed current field. -/
def pySplitCharAux (sep : Char) : List Char → List Char → List String
  | [], acc => [String.mk acc.reverse]
  | c :: t, acc =>
    if c = sep then String.mk acc.reverse :: pySplitCharAux sep t []
    else pySplitCharAux sep t (c :: acc)

/-- Python `s.split(sep)` for a single-character separator. -/
def pySplitChar (s : String) (sep : Char) : List String :=
  pySplitCharAux sep s.data []

/-- Python `f"{n:02d}"` for a natural number. -/
def fmt2 (n : Nat) : String :=
  if n < 10 then "0" ++ toString n else toString n

/-- The configuration update performed by a successful `/setreminder`:
set the reminder hour and minute and enable the reminder flag. -/
def updateReminder (cfg : BotConfig) (h m : Nat) : BotConfig :=
  { cfg with reminder_hour := (h : Int), reminder_minute := (m : Int),
             reminder_enabled := true }

/-- Outcome of the `/setreminder` branch of `run_command`: either a
reply text together with the configuration after the call and whether
it was persisted (`save_json`), or an uncaught ValueError escaping
`run_command` (no reply is sent; the dispatcher only catches it at its
backoff handler; the configuration is carried unchanged since the
raise happens before any mutation). -/
inductive SetReminderResult where
  | replied (text : String) (cfg : BotConfig) (saved : Bool)
  | raised (cfg : BotConfig)
  deriving Repr, DecidableEq

/-- The `/setreminder` branch of `run_command`
(telegram_streak_bot.py lines 442-459).  Faithful control flow:
argument-count/colon check, two-field split check, `str.isdigit`
check, then `int(hour)` and `int(minute)` — which raise ValueError on
digit-type non-decimal characters the isdigit gate admitted — then
range check, then mutate + persist + confirm. -/
def run_setreminder (args : List String) (cfg : BotConfig) : SetReminderResult :=
  if args.length ≠ 1 ∨ pyContainsChar (args.headD "") ':' = false then
    .replied "Kullanim: /hatirlat HH:MM (ornek: /hatirlat 22:15)" cfg false
  else
    let hm := pySplitChar (args.headD "") ':'
    if hm.length ≠ 2 then
      .replied "Kullanim: /hatirlat HH:MM (ornek: /hatirlat 22:15)" cfg false
    else
      let hour := hm.headD ""
      let minute := hm.getD 1 ""
      if ¬(pyIsDigit hour = true ∧ pyIsDigit minute = true) then
        .replied "Saat formati hatali." cfg false
      else
        match pyIntDigits hour with
        | none => .raised cfg
        | some h =>
          match pyIntDigits minute with
          | none => .raised cfg
          | some m =>
            if 23 < h ∨ 59 < m then
              .replied "Saat formati hatali." cfg false
            else
              .replied
                ("Hatirlatma saati " ++ fmt2 h ++ ":" ++ fmt2 m ++ " olarak guncellendi.")
                (updateReminder cfg h m) true

/-- `callback_to_action` (telegram_streak_bot.py lines 473-487): the
fixed lookup from callback data to an action name, `""` for unmapped
data (Python returns `""` via `mapping.get(data, "")`). -/
def callback_to_action (data : String) : String :=
  if data = "act:streak" then "streak"
  else if data = "act:status" then "status"
  else if data = "act:tick" then "tick"
  else if data = "act:maintain" then "maintain"
  else if data = "act:busy1" then "busy1"
  else if data = "act:busy3" then "busy3"
  else if data = "act:off" then "off"
  else if data = "act:reminder_on" then "reminder_on"
  else if data = "act:reminder_off" then "reminder_off"
  else if data = "act:reminder_2130" then "reminder_2130"
  else if data = "act:panel" then "panel"
  else ""

/-- The configuration effect of `run_action`
(telegram_streak_bot.py lines 325-384): only the reminder actions
mutate (and persist) the bot configuration; every other action leaves
it unchanged. -/
def run_action_cfg (action : String) (cfg : BotConfig) : BotConfig :=
  if action = "reminder_on" then { cfg with reminder_enabled := true }
  else if action = "reminder_off" then { cfg with reminder_enabled := false }
  else if action = "reminder_2130" then
    { cfg with reminder_hour := 21, reminder_minute := 30, reminder_enabled := true }
  else cfg

/-- Observable outcome of `handle_callback_update`: the
`answerCallbackQuery` texts sent, the action passed to `run_action`
(if any), and the configuration after the call. -/
structure CbOutcome where
  acks : List String
  executed : Option String
  cfg : BotConfig
  deriving Repr, DecidableEq

/-- `handle_callback_update` (telegram_streak_bot.py lines 537-561):
ignore updates missing an id; authorize with the fixed command
"/panel"; on rejection answer "Yetkisiz istek." and do nothing else;
on unmapped data answer "Bilinmeyen buton."; otherwise acknowledge and
run the action. -/
def handle_callback (callback_id data chat_id : String) (cfg : BotConfig) :
    CbOutcome :=
  if callback_id = "" ∨ chat_id = "" then
    { acks := [], executed := none, cfg := cfg }
  else
    let a := authorize_chat chat_id "/panel" cfg
    if a.allowed = false then
      { acks := ["Yetkisiz istek."], executed := none, cfg := a.cfg }
    else
      let action := callback_to_action data
      if action = "" then
        { acks := ["Bilinmeyen buton."], executed := none, cfg := a.cfg }
      else
        { acks := ["Islem alindi."], executed := some action
          cfg := run_action_cfg action a.cfg }

/-! ## The dispatcher loop offset discipline (run_loop, lines 564-613) -/

/-- Processing one update inside the batch loop
(telegram_streak_bot.py lines 587-595): the pair is
`(offset, last_update_id)`; `offset` advances to `upd_id + 1` when
`upd_id >= offset`, and `state["last_update_id"]` is set to `upd_id`
unconditionally. -/
def stepUpdate (p : Nat × Nat) (uid : Nat) : Nat × Nat :=
  (if p.1 ≤ uid then uid + 1 else p.1, uid)

/-- Processing one fetched batch of update ids in order. -/
def processBatch (p : Nat × Nat) (batch : List Nat) : Nat × Nat :=
  batch.foldl stepUpdate p

/-- Startup state of the loop (telegram_streak_bot.py line 577):
polling resumes at `last_update_id + 1`, with `last_update_id` loaded
from disk. -/
def startState (lastId : Nat) : Nat × Nat :=
  (lastId + 1, lastId)

/-- One process lifetime: starting from the persisted `last_update_id`,
process the fetched batches in order (state is persisted after every
iteration, line 606, so the final pair is the persisted one). -/
def runBatches (lastId : Nat) (batches : List (List Nat)) : Nat × Nat :=
  batches.foldl processBatch (startState lastId)

/-- Strictly ascending list of update ids. -/
def sortedStrict : List Nat → Bool
  | [] => true
  | [_] => true
  | a :: b :: t => decide (a < b) && sortedStrict (b :: t)

/-- The transport's offset contract for one fetched batch (spec section
on MessageTransport: `getUpdates(offset, timeout)` returns an ordered
sequence of updates at or above the requested offset). -/
def validBatch (offset : Nat) (b : List Nat) : Bool :=
  sortedStrict b && b.all (fun u => offset ≤ u)

/-- The transport contract for a whole sequence of fetches, threading
the offset the loop would request before each one. -/
def validFetches (p : Nat × Nat) : List (List Nat) → Bool
  | [] => true
  | b :: bs => validBatch p.1 b && validFetches (processBatch p b) bs

/-- The maximum update offset seen over a run, with the persisted
baseline as the initial value. -/
def maxSeen (lastId : Nat) (batches : List (List Nat)) : Nat :=
  List.foldl max lastId batches.flatten

/-! ## The dispatcher loop failure handling (run_loop, lines 584-613) -/

/-- Outcome of the body of one loop iteration: normal completion, an
explicit user interrupt (`KeyboardInterrupt`), or any other exception
(the `except Exception` arm), carrying its message. -/
inductive IterOutcome where
  | ok
  | keyboardInterrupt
  | exnOther (msg : String)
  deriving Repr, DecidableEq

/-- What the loop does next after one iteration. -/
inductive LoopNext where
  | retryAfter (backoffSeconds : Nat)
  | exitCode (code : Int)
  deriving Repr, DecidableEq

/-- The `try/except` dispatch of `run_loop`
(telegram_streak_bot.py lines 584-613): normal completion loops
immediately; `KeyboardInterrupt` returns 0 (clean exit); any other
exception is logged and the loop retries after a fixed 5-second
sleep. -/
def handle_loop_outcome : IterOutcome → LoopNext
  | .ok => .retryAfter 0
  | .keyboardInterrupt => .exitCode 0
  | .exnOther _ => .retryAfter 5

/-! ## Helper lemmas for the offset discipline -/

theorem sortedStrict_cons_lt :
    ∀ (t : List Nat) (u : Nat), sortedStrict (u :: t) = true → ∀ x ∈ t, u < x := by
  intro t
  induction t with
  | nil =>
    intro u _ x hx
    cases hx
  | cons v t ih =>
    intro u h x hx
    have h1 : u < v ∧ sortedStrict (v :: t) = true := by
      simpa [sortedStrict] using h
    rcases List.mem_cons.mp hx with rfl | hx2
    · exact h1.1
    · exact lt_trans h1.1 (ih v h1.2 x hx2)

theorem sortedStrict_tail :
    ∀ (t : List Nat) (u : Nat), sortedStrict (u :: t) = true → sortedStrict t = true := by
  intro t u h
  cases t with
  | nil => rfl
  | cons v t =>
    have h1 : u < v ∧ sortedStrict (v :: t) = true := by
      simpa [sortedStrict] using h
    exact h1.2

theorem le_foldl_max : ∀ (b : List Nat) (a : Nat), a ≤ List.foldl max a b := by
  intro b
  induction b with
  | nil =>
    intro a
    simp
  | cons u t ih =>
    intro a
    calc a ≤ max a u := le_max_left a u
    _ ≤ List.foldl max (max a u) t := ih (max a u)

theorem processBatch_eq :
    ∀ (b : List Nat) (last : Nat), validBatch (last + 1) b = true →
      processBatch (last + 1, last) b =
        (List.foldl max last b + 1, List.foldl max last b) := by
  intro b
  induction b with
  | nil =>
    intro last _
    rfl
  | cons u t ih =>
    intro last h
    simp only [validBatch, Bool.and_eq_true] at h
    obtain ⟨hs, hall⟩ := h
    simp only [List.all_eq_true, decide_eq_true_eq] at hall
    have hu : last + 1 ≤ u := hall u (List.mem_cons_self u t)
    have step1 : stepUpdate (last + 1, last) u = (u + 1, u) := by
      simp [stepUpdate, hu]
    have hvt : validBatch (u + 1) t = true := by
      simp only [validBatch, Bool.and_eq_true, List.all_eq_true, decide_eq_true_eq]
      exact ⟨sortedStrict_tail t u hs, fun x hx => sortedStrict_cons_lt t u hs x hx⟩
    have h1 : processBatch (last + 1, last) (u :: t) = processBatch (u + 1, u) t := by
      simp [processBatch, List.foldl_cons, step1]
    have hfold : List.foldl max last (u :: t) = List.foldl max u t := by
      have hmax : max last u = u := Nat.max_eq_right (Nat.le_of_succ_le hu)
      simp [List.foldl_cons, hmax]
    rw [h1, hfold]
    exact ih u hvt

theorem runBatches_eq :
    ∀ (bs : List (List Nat)) (lastId : Nat),
      validFetches (startState lastId) bs = true →
      runBatches lastId bs = (maxSeen lastId bs + 1, maxSeen lastId bs) := by
  intro bs
  induction bs with
  | nil =>
    intro lastId _
    rfl
  | cons b bs ih =>
    intro lastId h
    simp only [validFetches, Bool.and_eq_true] at h
    obtain ⟨hb, hbs⟩ := h
    have hss : startState lastId = (lastId + 1, lastId) := rfl
    rw [hss] at hb hbs
    have hpb := processBatch_eq b lastId hb
    rw [hpb] at hbs
    have h1 : runBatches lastId (b :: bs) =
        runBatches (List.foldl max lastId b) bs := by
      simp [runBatches, List.foldl_cons, startState, hpb]
    have h2 := ih (List.foldl max lastId b) (by exact hbs)
    have h3 : maxSeen lastId (b :: bs) = maxSeen (List.foldl max lastId b) bs := by
      simp [maxSeen, List.foldl_append]
    rw [h1, h2, h3]

/-! ## Claim theorems -/

/-- Claim C1: for every sequence of fetched update batches satisfying
the transport's offset contract (each batch strictly ascending and at or
above the requested offset), the persisted `last_update_id` after
processing equals the maximum update offset seen so far, polling resumes
at `last_update_id + 1` (so the next session's fetches start there), and
`last_update_id` is monotonically non-decreasing across the process
lifetime and across a simulated restart. -/
theorem c1_offset_equals_max_and_monotone
    (lastId : Nat) (bs1 bs2 : List (List Nat))
    (h1 : validFetches (startState lastId) bs1 = true)
    (h2 : validFetches (startState (runBatches lastId bs1).2) bs2 = true) :
    (runBatches lastId bs1).2 = maxSeen lastId bs1 ∧
    (runBatches lastId bs1).1 = maxSeen lastId bs1 + 1 ∧
    (runBatches (runBatches lastId bs1).2 bs2).2 =
      maxSeen (maxSeen lastId bs1) bs2 ∧
    lastId ≤ (runBatches lastId bs1).2 ∧
    (runBatches lastId bs1).2 ≤ (runBatches (runBatches lastId bs1).2 bs2).2 := by
  have e1 := runBatches_eq bs1 lastId h1
  have r2 : (runBatches lastId bs1).2 = maxSeen lastId bs1 := by rw [e1]
  have r1 : (runBatches lastId bs1).1 = maxSeen lastId bs1 + 1 := by rw [e1]
  rw [r2] at h2
  have e2 := runBatches_eq bs2 (maxSeen lastId bs1) h2
  refine ⟨r2, r1, ?_, ?_, ?_⟩
  · rw [r2, e2]
  · rw [r2]
    exact le_foldl_max bs1.flatten lastId
  · rw [r2, e2]
    exact le_foldl_max bs2.flatten (maxSeen lastId bs1)

/-- Witness for C1 at a concrete run: baseline id 3, one session with
batches [4,6] and [9], a restart, then a batch [12]. -/
theorem c1_offset_equals_max_and_monotone_witness :
    validFetches (startState 3) [[4, 6], [9]] = true ∧
    validFetches (startState (runBatches 3 [[4, 6], [9]]).2) [[12]] = true ∧
    (runBatches 3 [[4, 6], [9]]).2 = maxSeen 3 [[4, 6], [9]] := by
  have h1 : validFetches (startState 3) [[4, 6], [9]] = true := by decide
  have h2 : validFetches (startState (runBatches 3 [[4, 6], [9]]).2) [[12]] = true := by
    decide
  exact ⟨h1, h2, (c1_offset_equals_max_and_monotone 3 [[4, 6], [9]] [[12]] h1 h2).1⟩

/-- Claim C2: once a chat is bound (stripped `allowed_chat_id`
non-empty), `authorize_chat` never mutates or re-persists the
configuration, never re-binds, and allows a request exactly when the
incoming chat id equals the stored (stripped) id — so every other chat,
including one sending repeated "/start" commands, is rejected. -/
theorem c2_binding_immutable_once_set
    (cfg : BotConfig) (chat_id cmd : String)
    (hbound : pyStrip cfg.allowed_chat_id ≠ "") :
    (authorize_chat chat_id cmd cfg).cfg = cfg ∧
    (authorize_chat chat_id cmd cfg).saved = false ∧
    (authorize_chat chat_id cmd cfg).bound_now = false ∧
    ((authorize_chat chat_id cmd cfg).allowed = true ↔
      chat_id = pyStrip cfg.allowed_chat_id) := by
  by_cases hc : pyStrip cfg.allowed_chat_id = chat_id
  · have hb2 : chat_id ≠ "" := by rw [← hc]; exact hbound
    simp [authorize_chat, hbound, hc, hb2]
  · have hc2 : chat_id ≠ pyStrip cfg.allowed_chat_id := fun h => hc h.symm
    simp [authorize_chat, hbound, hc, hc2]

/-- Witness for C2: a bound configuration rejects a different chat id
sending "/start" and keeps the binding unchanged. -/
theorem c2_binding_immutable_once_set_witness :
    (authorize_chat "456" "/start"
        { allowed_chat_id := "123", auto_bind_chat_on_start := true,
          reminder_enabled := true, reminder_hour := 21, reminder_minute := 30 }).cfg =
      { allowed_chat_id := "123", auto_bind_chat_on_start := true,
        reminder_enabled := true, reminder_hour := 21, reminder_minute := 30 } ∧
    (authorize_chat "456" "/start"
        { allowed_chat_id := "123", auto_bind_chat_on_start := true,
          reminder_enabled := true, reminder_hour := 21, reminder_minute := 30 }).bound_now =
      false := by
  have h := c2_binding_immutable_once_set
    { allowed_chat_id := "123", auto_bind_chat_on_start := true,
      reminder_enabled := true, reminder_hour := 21, reminder_minute := 30 }
    "456" "/start" (by decide)
  exact ⟨h.1, h.2.2.1⟩

/-- Sample streakkeeper configuration used by concrete witnesses:
busy until day 19734 (2024-01-12), defaults otherwise. -/
def skCfg0 : SKConfig :=
  { busy_until := some 19734, busy_note := "Busy mode",
    heartbeat_file := "streak-heartbeat.md", remote := "origin",
    branch := "main", commit_msg_tag := "chore(streak)" }

/-- Fresh streakkeeper state: no protective commit recorded yet. -/
def skSt0 : SKState := { last_commit_date := none }

/-- Git environment in which every operation succeeds. -/
def gitOk : GitEnv :=
  { current_branch := "main", add_ok := true, commit_ok := true,
    push_ok := true, err_text := "" }

/-- Git environment in which `git commit` fails. -/
def gitCommitFail : GitEnv :=
  { current_branch := "main", add_ok := true, commit_ok := false,
    push_ok := true, err_text := "commit failed" }

/-- Claim C3: with busy mode active and no protective commit recorded
for today, `tick` without `--force` appends exactly one heartbeat line
and attempts exactly one `git commit` (inside one add/commit/push
chain); calling it again the same day is a no-op that reports
"Skip: Bugun zaten streak commit atilmis." ("already done today") with
no file write, no state write and no git operation. -/
theorem c3_protect_twice_one_commit
    (config : SKConfig) (state : SKState) (note msg : String)
    (today : Int) (now : String) (git : GitEnv)
    (hbusy : (is_busy_active config today).1 = true)
    (hnew : state.last_commit_date ≠ some today)
    (hbranch : (if config.branch ≠ "" then config.branch else git.current_branch) ≠ "")
    (hadd : git.add_ok = true) (hcommit : git.commit_ok = true)
    (hpush : git.push_ok = true) :
    cmd_tick config state ⟨false, false, note, msg⟩ today now git =
      { code := 0
        output := "Commit ve push tamamlandi (" ++ toString today ++ ")."
        appended := ["- " ++ now ++ " | " ++
          (if note ≠ "" then note else config.busy_note) ++ "\n"]
        state_out := { last_commit_date := some today }
        state_saved := true
        git_ops := [["add", config.heartbeat_file, ".streakkeeper/state.json"],
          ["commit", "-m",
            (if msg ≠ "" then msg
             else config.commit_msg_tag ++ ": keep streak " ++ toString today)],
          ["push", config.remote,
            (if config.branch ≠ "" then config.branch else git.current_branch)]] } ∧
    (cmd_tick config state ⟨false, false, note, msg⟩ today now git).git_ops.countP
      (fun c => c.headD "" == "commit") = 1 ∧
    cmd_tick config { last_commit_date := some today } ⟨false, false, note, msg⟩
        today now git =
      { code := 0, output := "Skip: Bugun zaten streak commit atilmis."
        appended := [], state_out := { last_commit_date := some today }
        state_saved := false, git_ops := [] } := by
  have h1 : cmd_tick config state ⟨false, false, note, msg⟩ today now git =
      { code := 0
        output := "Commit ve push tamamlandi (" ++ toString today ++ ")."
        appended := ["- " ++ now ++ " | " ++
          (if note ≠ "" then note else config.busy_note) ++ "\n"]
        state_out := { last_commit_date := some today }
        state_saved := true
        git_ops := [["add", config.heartbeat_file, ".streakkeeper/state.json"],
          ["commit", "-m",
            (if msg ≠ "" then msg
             else config.commit_msg_tag ++ ": keep streak " ++ toString today)],
          ["push", config.remote,
            (if config.branch ≠ "" then config.branch else git.current_branch)]] } := by
    have hbranch2 : ¬(if config.branch = "" then git.current_branch else config.branch) = "" := by
      simpa using hbranch
    simp [cmd_tick, hbusy, hnew, hbranch2, hadd, hcommit, hpush]
  refine ⟨h1, ?_, ?_⟩
  · rw [h1]
    simp [List.countP, List.countP.go]
  · simp [cmd_tick, hbusy]

/-- Witness for C3: concrete configuration, fresh state, succeeding
git environment, on day 19734. -/
theorem c3_protect_twice_one_commit_witness :
    (cmd_tick skCfg0 skSt0 ⟨false, false, "", ""⟩ 19734 "2024-01-12T20:00:00" gitOk).state_saved
        = true ∧
    cmd_tick skCfg0 { last_commit_date := some 19734 } ⟨false, false, "", ""⟩
        19734 "2024-01-12T20:00:00" gitOk =
      { code := 0, output := "Skip: Bugun zaten streak commit atilmis."
        appended := [], state_out := { last_commit_date := some 19734 }
        state_saved := false, git_ops := [] } := by
  have h := c3_protect_twice_one_commit skCfg0 skSt0 "" "" 19734
    "2024-01-12T20:00:00" gitOk (by decide) (by decide) (by decide)
    (by decide) (by decide) (by decide)
  exact ⟨by rw [h.1], h.2.2⟩

/-- Claim C9: the protective action records today as
`last_commit_date` and persists it before the git add/commit/push
chain; when the commit fails the call returns exit code 1 with the
git diagnostic, yet the persisted state still carries today, and a
subsequent `tick` without `--force` the same day is a no-op reporting
already-done even though no commit ever landed. -/
theorem c9_state_not_rolled_back_on_commit_failure
    (config : SKConfig) (state : SKState) (note msg : String)
    (today : Int) (now : String) (git : GitEnv)
    (hbusy : (is_busy_active config today).1 = true)
    (hnew : state.last_commit_date ≠ some today)
    (hbranch : (if config.branch ≠ "" then config.branch else git.current_branch) ≠ "")
    (hadd : git.add_ok = true) (hcommitfail : git.commit_ok = false) :
    cmd_tick config state ⟨false, false, note, msg⟩ today now git =
      { code := 1
        output := "Hata: " ++ git.err_text
        appended := ["- " ++ now ++ " | " ++
          (if note ≠ "" then note else config.busy_note) ++ "\n"]
        state_out := { last_commit_date := some today }
        state_saved := true
        git_ops := [["add", config.heartbeat_file, ".streakkeeper/state.json"],
          ["commit", "-m",
            (if msg ≠ "" then msg
             else config.commit_msg_tag ++ ": keep streak " ++ toString today)]] } ∧
    cmd_tick config { last_commit_date := some today } ⟨false, false, note, msg⟩
        today now git =
      { code := 0, output := "Skip: Bugun zaten streak commit atilmis."
        appended := [], state_out := { last_commit_date := some today }
        state_saved := false, git_ops := [] } := by
  have hbranch2 : ¬(if config.branch = "" then git.current_branch else config.branch) = "" := by
    simpa using hbranch
  constructor
  · simp [cmd_tick, hbusy, hnew, hbranch2, hadd, hcommitfail]
  · simp [cmd_tick, hbusy]

/-- Witness for C9: the commit fails, yet the state is persisted with
today and the second invocation skips. -/
theorem c9_state_not_rolled_back_on_commit_failure_witness :
    (cmd_tick skCfg0 skSt0 ⟨false, false, "", ""⟩ 19734 "2024-01-12T21:00:00"
        gitCommitFail).code = 1 ∧
    (cmd_tick skCfg0 skSt0 ⟨false, false, "", ""⟩ 19734 "2024-01-12T21:00:00"
        gitCommitFail).state_out = { last_commit_date := some 19734 } ∧
    (cmd_tick skCfg0 { last_commit_date := some 19734 } ⟨false, false, "", ""⟩
        19734 "2024-01-12T21:00:00" gitCommitFail).git_ops = [] := by
  have h := c9_state_not_rolled_back_on_commit_failure skCfg0 skSt0 "" "" 19734
    "2024-01-12T21:00:00" gitCommitFail (by decide) (by decide) (by decide)
    (by decide) (by decide)
  exact ⟨by rw [h.1], by rw [h.1], by rw [h.2]⟩

/-- Claim C4: `is_reminder_due` returns false when reminders are
disabled; false when the wall-clock time-of-day is lexicographically
earlier than the configured (hour, minute); false when a reminder was
already sent today; and otherwise true exactly when no commit has
landed in the repository since local midnight. -/
theorem c4_is_reminder_due_characterization
    (cfg : BotConfig) (st : BotState) (today : Int)
    (nh nm : Int) (commit : Bool) :
    (cfg.reminder_enabled = false →
      is_reminder_due cfg st today nh nm commit = false) ∧
    ((nh < cfg.reminder_hour ∨ (nh = cfg.reminder_hour ∧ nm < cfg.reminder_minute)) →
      is_reminder_due cfg st today nh nm commit = false) ∧
    (st.last_reminder_date = some today →
      is_reminder_due cfg st today nh nm commit = false) ∧
    (cfg.reminder_enabled = true →
      ¬(nh < cfg.reminder_hour ∨ (nh = cfg.reminder_hour ∧ nm < cfg.reminder_minute)) →
      st.last_reminder_date ≠ some today →
      (is_reminder_due cfg st today nh nm commit = true ↔ commit = false)) := by
  refine ⟨?_, ?_, ?_, ?_⟩
  · intro h
    simp [is_reminder_due, h]
  · intro h
    simp [is_reminder_due, h]
  · intro h
    simp [is_reminder_due, h]
  · intro h1 h2 h3
    simp [is_reminder_due, h1, h2, h3]

/-- Witness for C4: enabled reminder at 21:30, clock 22:00, not yet
sent today, no commit today: the reminder is due. -/
theorem c4_is_reminder_due_characterization_witness :
    is_reminder_due
      { allowed_chat_id := "123", auto_bind_chat_on_start := true,
        reminder_enabled := true, reminder_hour := 21, reminder_minute := 30 }
      { last_update_id := 0, last_reminder_date := none } 0 22 0 false = true := by
  have h := (c4_is_reminder_due_characterization
    { allowed_chat_id := "123", auto_bind_chat_on_start := true,
      reminder_enabled := true, reminder_hour := 21, reminder_minute := 30 }
    { last_update_id := 0, last_reminder_date := none } 0 22 0 false).2.2.2
    (by decide) (by decide) (by decide)
  exact h.mpr rfl

/-- Bot configuration with reminders enabled at 00:00 and no bound
chat; used to exhibit the unbound-chat reminder behaviour. -/
def cfgUnboundReminder : BotConfig :=
  { allowed_chat_id := "", auto_bind_chat_on_start := true,
    reminder_enabled := true, reminder_hour := 0, reminder_minute := 0 }

/-- Bot configuration with reminders enabled at 21:30 and a bound
chat. -/
def cfgBoundReminder : BotConfig :=
  { allowed_chat_id := "123", auto_bind_chat_on_start := true,
    reminder_enabled := true, reminder_hour := 21, reminder_minute := 30 }

/-- Fresh bot state: no update processed, no reminder sent. -/
def stFresh : BotState := { last_update_id := 0, last_reminder_date := none }

/-- Counterexample to claim C5 as stated: when no chat is bound
(`allowed_chat_id` empty) the reminder block of the loop never records
`last_reminder_date`, so `is_reminder_due` evaluates to true again on a
later iteration of the very same day — the check does evaluate to true
twice on one calendar day. -/
theorem c5_counterexample :
    is_reminder_due cfgUnboundReminder stFresh 0 12 0 false = true ∧
    reminderStep cfgUnboundReminder stFresh 0 12 0 false = (stFresh, false) ∧
    is_reminder_due cfgUnboundReminder
      (reminderStep cfgUnboundReminder stFresh 0 12 0 false).1 0 12 0 false = true := by
  refine ⟨by decide, by decide, by decide⟩

/-- Claim C5 (amended): provided a chat is bound (stripped
`allowed_chat_id` non-empty), once the loop's reminder block runs on a
due iteration it latches today into `last_reminder_date`, and every
later `is_reminder_due` evaluation on the same day — at any wall-clock
time and any repository state — returns false. -/
theorem c5_reminder_latched_once_bound
    (cfg : BotConfig) (st : BotState) (today : Int)
    (nh nm : Int) (commit : Bool) (nh2 nm2 : Int) (commit2 : Bool)
    (hbound : pyStrip cfg.allowed_chat_id ≠ "")
    (hdue : is_reminder_due cfg st today nh nm commit = true) :
    (reminderStep cfg st today nh nm commit).1.last_reminder_date = some today ∧
    is_reminder_due cfg (reminderStep cfg st today nh nm commit).1
      today nh2 nm2 commit2 = false := by
  have hstep : reminderStep cfg st today nh nm commit =
      ({ st with last_reminder_date := some today }, true) := by
    simp [reminderStep, hdue, hbound]
  rw [hstep]
  refine ⟨rfl, ?_⟩
  unfold is_reminder_due
  split_ifs with h1 h2 h3
  · rfl
  · rfl
  · rfl
  · exact absurd rfl h3

/-- Witness for the amended C5: bound chat, due at 22:00, and after
the step the check is false for the rest of the day. -/
theorem c5_reminder_latched_once_bound_witness :
    pyStrip cfgBoundReminder.allowed_chat_id ≠ "" ∧
    is_reminder_due cfgBoundReminder stFresh 0 22 0 false = true ∧
    is_reminder_due cfgBoundReminder
      (reminderStep cfgBoundReminder stFresh 0 22 0 false).1 0 23 59 false = false := by
  have h := c5_reminder_latched_once_bound cfgBoundReminder stFresh 0 22 0 false
    23 59 false (by decide) (by decide)
  exact ⟨by decide, by decide, h.2⟩

/-- Claim C6 (code bug exhibited): the `/setreminder` validator gates
`int(...)` with Python `str.isdigit`, which accepts more than ASCII
decimal digits.  At "²:5" the digit check passes but `int` raises
ValueError on the superscript digit, which escapes `run_command`: no
usage/format-error reply is produced and the dispatcher only catches
the error at its backoff handler — contradicting the claim (and the
spec, whose router "never raises" and answers every malformed input).
At "٢٢:١٥" (Arabic-Indic decimal digits) the argument is accepted and
the configuration is mutated and persisted to 22:15 instead of a
format-error reply to a non-HH:MM argument.  The ASCII paths behave as
the claim intends: "9" (missing minute) yields the usage reply with no
mutation, and "22:15" sets hour 22, minute 15, enables the flag and
persists. -/
theorem c6_setreminder_code_bug :
    (∀ cfg : BotConfig, run_setreminder ["²:5"] cfg = .raised cfg) ∧
    (∀ cfg : BotConfig,
      run_setreminder ["٢٢:١٥"] cfg =
        .replied "Hatirlatma saati 22:15 olarak guncellendi."
          (updateReminder cfg 22 15) true) ∧
    (∀ cfg : BotConfig,
      run_setreminder ["9"] cfg =
        .replied "Kullanim: /hatirlat HH:MM (ornek: /hatirlat 22:15)" cfg false) ∧
    (∀ cfg : BotConfig,
      run_setreminder ["22:15"] cfg =
        .replied "Hatirlatma saati 22:15 olarak guncellendi."
          (updateReminder cfg 22 15) true) := by
  refine ⟨fun cfg => rfl, fun cfg => rfl, fun cfg => rfl, fun cfg => rfl⟩

/-- Claim C7: `busy --days N` sets `busy_until = today + max(N,1) - 1`;
busy mode is active exactly when `today ≤ busy_until`; and concretely,
`busy --days 3` on 2024-01-10 yields `busy_until` = 2024-01-12, active
on 2024-01-12 and inactive on 2024-01-13. -/
theorem c7_busy_window
    (days : Int) (note : String) (cfg : SKConfig) (today : Int) :
    (cmd_busy days note cfg today).busy_until =
      some (today + (max days 1 - 1)) ∧
    (∀ (c : SKConfig) (t u : Int), c.busy_until = some u →
      ((is_busy_active c t).1 = true ↔ t ≤ u)) ∧
    (∀ c : SKConfig,
      (cmd_busy 3 "" c (civilToDay 2024 1 10)).busy_until =
        some (civilToDay 2024 1 12) ∧
      (is_busy_active (cmd_busy 3 "" c (civilToDay 2024 1 10))
        (civilToDay 2024 1 12)).1 = true ∧
      (is_busy_active (cmd_busy 3 "" c (civilToDay 2024 1 10))
        (civilToDay 2024 1 13)).1 = false) := by
  refine ⟨rfl, ?_, ?_⟩
  · intro c t u h
    simp [is_busy_active, h]
  · intro c
    refine ⟨?_, ?_, ?_⟩
    · simp only [cmd_busy]
      decide
    · simp only [cmd_busy, is_busy_active]
      decide
    · simp only [cmd_busy, is_busy_active]
      decide

/-- Witness for C7: a configuration with `busy_until` = day 7 is active
on day 5. -/
theorem c7_busy_window_witness :
    ((is_busy_active skCfg0 19732).1 = true ↔ (19732 : Int) ≤ 19734) :=
  (c7_busy_window 0 "" skCfg0 0).2.1 skCfg0 19732 19734 rfl

/-- Claim C8: the dispatcher loop treats any exception other than the
explicit user interrupt by logging and retrying after the fixed
5-second backoff — it never exits on such an error — while a
`KeyboardInterrupt` terminates the loop with exit code 0. -/
theorem c8_loop_error_handling :
    (∀ msg : String, handle_loop_outcome (.exnOther msg) = .retryAfter 5) ∧
    handle_loop_outcome .keyboardInterrupt = .exitCode 0 ∧
    (∀ o : IterOutcome, ∀ c : Int,
      handle_loop_outcome o = .exitCode c → o = .keyboardInterrupt ∧ c = 0) := by
  refine ⟨fun _ => rfl, rfl, ?_⟩
  intro o c h
  cases o with
  | ok => cases h
  | keyboardInterrupt =>
    refine ⟨rfl, ?_⟩
    cases h
    rfl
  | exnOther msg => cases h

/-- Witness for C8: a concrete transient error retries after 5 seconds
and is recognized as a non-exit by the theorem. -/
theorem c8_loop_error_handling_witness :
    handle_loop_outcome (.exnOther "HTTP timeout") = .retryAfter 5 ∧
    (handle_loop_outcome .keyboardInterrupt = .exitCode 0 →
      IterOutcome.keyboardInterrupt = IterOutcome.keyboardInterrupt) :=
  ⟨c8_loop_error_handling.1 "HTTP timeout",
   fun h => (c8_loop_error_handling.2.2 .keyboardInterrupt 0 h).1⟩

/-- Claim C10: while no chat is bound, a callback/button update is
answered with the unauthorized acknowledgment, executes no action and
leaves the configuration (in particular the empty binding) unchanged —
because the callback path authorizes with the fixed command "/panel",
and `authorize_chat` can bind only when the command is "/start". -/
theorem c10_callback_cannot_bind
    (callback_id data chat_id : String) (cfg : BotConfig)
    (hunbound : pyStrip cfg.allowed_chat_id = "")
    (hcid : callback_id ≠ "") (hchat : chat_id ≠ "") :
    handle_callback callback_id data chat_id cfg =
      { acks := ["Yetkisiz istek."], executed := none, cfg := cfg } ∧
    (∀ (c cmd : String) (cfg2 : BotConfig),
      (authorize_chat c cmd cfg2).bound_now = true → cmd = "/start") ∧
    (∀ (c cmd : String) (cfg2 : BotConfig),
      (authorize_chat c cmd cfg2).cfg ≠ cfg2 → cmd = "/start") := by
  refine ⟨?_, ?_, ?_⟩
  · have hauth : authorize_chat chat_id "/panel" cfg =
        { allowed := false, bound_now := false, cfg := cfg, saved := false } := by
      simp [authorize_chat, hunbound]
    simp [handle_callback, hcid, hchat, hauth]
  · intro c cmd cfg2 h
    by_cases hA : pyStrip cfg2.allowed_chat_id = ""
    · by_cases hB : cfg2.auto_bind_chat_on_start = true ∧ cmd = "/start"
      · exact hB.2
      · simp [authorize_chat, hA, hB] at h
    · by_cases hC : pyStrip cfg2.allowed_chat_id = c
      · have hc2 : c ≠ "" := by rw [← hC]; exact hA
        simp [authorize_chat, hA, hC, hc2] at h
      · simp [authorize_chat, hA, hC] at h
  · intro c cmd cfg2 h
    by_cases hA : pyStrip cfg2.allowed_chat_id = ""
    · by_cases hB : cfg2.auto_bind_chat_on_start = true ∧ cmd = "/start"
      · exact hB.2
      · simp [authorize_chat, hA, hB] at h
    · by_cases hC : pyStrip cfg2.allowed_chat_id = c
      · have hc2 : c ≠ "" := by rw [← hC]; exact hA
        simp [authorize_chat, hA, hC, hc2] at h
      · simp [authorize_chat, hA, hC] at h

/-- Witness for C10: with no chat bound, a tick button press from any
chat is answered "Yetkisiz istek." and nothing is bound or executed. -/
theorem c10_callback_cannot_bind_witness :
    handle_callback "cb1" "act:tick" "999" cfgUnboundReminder =
      { acks := ["Yetkisiz istek."], executed := none, cfg := cfgUnboundReminder } :=
  (c10_callback_cannot_bind "cb1" "act:tick" "999" cfgUnboundReminder
    (by decide) (by decide) (by decide)).1
